import Mathlib

/-!
Verification development for the MeeusSunMoon core: a shallow embedding of
`src/sunTimes.js` and `src/moonPhases.js` (solar event-time solver and lunar
true-phase solver), together with theorems settling the specification claims.

The repository files `auxMath.js`, `constants.js`, `timeConversions.js` and
`index.js` are not part of the analysed sources; following the specification
they are external collaborators.  The angular-math primitives are modelled
from the specification text, the constant tables and the calendar/DeltaT
providers are taken as parameters, and the two configuration flags are
threaded as explicit arguments.
-/

namespace MeeusSunMoon

open Real

/-- Modelled from the spec: `auxMath.js` is missing from the sources; the spec
describes degree-based sine.  `sind x = sin(x·π/180)`. -/
noncomputable def sind (x : ℝ) : ℝ := Real.sin (x * π / 180)

/-- Modelled from the spec: degree-based cosine from the missing `auxMath.js`. -/
noncomputable def cosd (x : ℝ) : ℝ := Real.cos (x * π / 180)

/-- Modelled from the spec: radian-to-degree conversion from the missing
`auxMath.js`. -/
noncomputable def rad2deg (x : ℝ) : ℝ := x * 180 / π

/-- Modelled from the spec: `reduceAngle(x)` is `x` mod 360 folded into
`[0,360)` (missing `auxMath.js`). -/
noncomputable def reduceAngle (x : ℝ) : ℝ := x - 360 * (⌊x / 360⌋ : ℝ)

/-- Modelled from the spec: `polynomial(x, coeffs)` evaluates
`Σ coeffs[i]·x^i` with coefficients ordered lowest-degree first (missing
`auxMath.js`). -/
def polynomial (x : ℝ) : List ℝ → ℝ
  | [] => 0
  | c :: cs => c + x * polynomial x cs

/-- Modelled from the spec: the pre-step of `interpolateFromThree` that
re-centers a sample relative to the middle sample `ref` by ±360° when the
interpolated quantity is a reduced angle that may have wrapped (missing
`auxMath.js`). -/
noncomputable def recenter (ref y : ℝ) : ℝ :=
  if y - ref > 180 then y - 360 else if ref - y > 180 then y + 360 else y

/-- Modelled from the spec: Bessel-style three-point interpolation at
fractional offset `n`, with the optional ±360° re-centering pre-step applied
to the outer samples when `normalize` is set (missing `auxMath.js`). -/
noncomputable def interpolateFromThree (y1 y2 y3 n : ℝ) (normalize : Bool) : ℝ :=
  let z1 := if normalize then recenter y2 y1 else y1
  let z3 := if normalize then recenter y2 y3 else y3
  let a := y2 - z1
  let b := z3 - y2
  let c := b - a
  y2 + (n / 2) * (a + b + n * c)

/-- Model of the JavaScript builtin `Math.atan2 y x`: the argument of the
complex number `x + y·i`, in `(-π, π]`. -/
noncomputable def atan2 (y x : ℝ) : ℝ := Complex.arg ⟨x, y⟩

/-- One row of the external 63-row nutation periodic-term table: five integer
argument multipliers (stored as reals) and four coefficients. -/
structure NutationRow where
  mulD : ℝ
  mulM : ℝ
  mulMPrime : ℝ
  mulF : ℝ
  mulOmega : ℝ
  sin1 : ℝ
  sin2 : ℝ
  cos1 : ℝ
  cos2 : ℝ

/-- The external constant tables (`constants.js` is not among the analysed
sources; the spec treats it as a static-data collaborator). -/
structure Constants where
  meanObliquityOfEcliptic : List ℝ
  moonArgumentOfLatitude : List ℝ
  moonAscendingNodeLongitude : List ℝ
  moonMeanAnomaly : List ℝ
  moonMeanElongation : List ℝ
  sunMeanAnomaly : List ℝ
  sunMeanLongitude : List ℝ
  nutations : ℕ → NutationRow

/-- The two no-event classification codes raised by the rise/set solver
(`noEventCodes` in `sunTimes.js`; the other table entries are caller-side
labels and never thrown by the core). -/
inductive NoEventCode where
  | SUN_HIGH
  | SUN_LOW
  deriving DecidableEq, Repr

namespace SunTimes

/-- Embeds `moonArgumentOfLatitude` from `sunTimes.js`. -/
noncomputable def moonArgumentOfLatitude (cst : Constants) (T : ℝ) : ℝ :=
  reduceAngle (polynomial T cst.moonArgumentOfLatitude)

/-- Embeds `moonAscendingNodeLongitude` from `sunTimes.js`. -/
noncomputable def moonAscendingNodeLongitude (cst : Constants) (T : ℝ) : ℝ :=
  reduceAngle (polynomial T cst.moonAscendingNodeLongitude)

/-- Embeds `moonMeanAnomaly` from `sunTimes.js`. -/
noncomputable def moonMeanAnomaly (cst : Constants) (T : ℝ) : ℝ :=
  reduceAngle (polynomial T cst.moonMeanAnomaly)

/-- Embeds `moonMeanElongation` from `sunTimes.js`. -/
noncomputable def moonMeanElongation (cst : Constants) (T : ℝ) : ℝ :=
  reduceAngle (polynomial T cst.moonMeanElongation)

/-- Embeds `sunMeanAnomaly` from `sunTimes.js`. -/
noncomputable def sunMeanAnomaly (cst : Constants) (T : ℝ) : ℝ :=
  reduceAngle (polynomial T cst.sunMeanAnomaly)

/-- Embeds `sunMeanLongitude` from `sunTimes.js`. -/
noncomputable def sunMeanLongitude (cst : Constants) (T : ℝ) : ℝ :=
  reduceAngle (polynomial T cst.sunMeanLongitude)

/-- Embeds `nutationInLongitude` from `sunTimes.js`: 63 periodic terms summed
then divided by 36000000. -/
noncomputable def nutationInLongitude (cst : Constants) (T : ℝ) : ℝ :=
  let D := moonMeanElongation cst T
  let M := sunMeanAnomaly cst T
  let MPrime := moonMeanAnomaly cst T
  let F := moonArgumentOfLatitude cst T
  let Omega := moonAscendingNodeLongitude cst T
  (∑ i ∈ Finset.range 63,
    ((cst.nutations i).sin1 + (cst.nutations i).sin2 * T) *
      sind ((cst.nutations i).mulD * D + (cst.nutations i).mulM * M +
        (cst.nutations i).mulMPrime * MPrime + (cst.nutations i).mulF * F +
        (cst.nutations i).mulOmega * Omega)) / 36000000

/-- Embeds `nutationInObliquity` from `sunTimes.js`. -/
noncomputable def nutationInObliquity (cst : Constants) (T : ℝ) : ℝ :=
  let D := moonMeanElongation cst T
  let M := sunMeanAnomaly cst T
  let MPrime := moonMeanAnomaly cst T
  let F := moonArgumentOfLatitude cst T
  let Omega := moonAscendingNodeLongitude cst T
  (∑ i ∈ Finset.range 63,
    ((cst.nutations i).cos1 + (cst.nutations i).cos2 * T) *
      cosd ((cst.nutations i).mulD * D + (cst.nutations i).mulM * M +
        (cst.nutations i).mulMPrime * MPrime + (cst.nutations i).mulF * F +
        (cst.nutations i).mulOmega * Omega)) / 36000000

/-- Embeds `meanObliquityOfEcliptic` from `sunTimes.js`. -/
noncomputable def meanObliquityOfEcliptic (cst : Constants) (T : ℝ) : ℝ :=
  polynomial (T / 100) cst.meanObliquityOfEcliptic

/-- Embeds `trueObliquityOfEcliptic` from `sunTimes.js`. -/
noncomputable def trueObliquityOfEcliptic (cst : Constants) (T : ℝ) : ℝ :=
  meanObliquityOfEcliptic cst T + nutationInObliquity cst T

/-- Embeds `meanSiderealTimeGreenwich` from `sunTimes.js`. -/
noncomputable def meanSiderealTimeGreenwich (T : ℝ) : ℝ :=
  280.46061837 + 360.98564736629 * (T * 36525) + 0.000387933 * T * T -
    T * T * T / 38710000

/-- Embeds `apparentSiderealTimeGreenwich` from `sunTimes.js`. -/
noncomputable def apparentSiderealTimeGreenwich (cst : Constants) (T : ℝ) : ℝ :=
  reduceAngle (meanSiderealTimeGreenwich T +
    nutationInLongitude cst T * cosd (trueObliquityOfEcliptic cst T))

/-- Embeds `sunEquationOfCenter` from `sunTimes.js`. -/
noncomputable def sunEquationOfCenter (cst : Constants) (T : ℝ) : ℝ :=
  let M := sunMeanAnomaly cst T
  (1.914602 - 0.004817 * T - 0.000014 * T * T) * sind M +
    (0.019993 - 0.000101 * T) * sind (2 * M) + 0.000290 * sind (3 * M)

/-- Embeds `sunTrueLongitude` from `sunTimes.js`. -/
noncomputable def sunTrueLongitude (cst : Constants) (T : ℝ) : ℝ :=
  sunMeanLongitude cst T + sunEquationOfCenter cst T

/-- Embeds `sunApparentLongitude` from `sunTimes.js`. -/
noncomputable def sunApparentLongitude (cst : Constants) (T : ℝ) : ℝ :=
  sunTrueLongitude cst T - 0.00569 -
    0.00478 * sind (moonAscendingNodeLongitude cst T)

/-- Embeds `sunApparentRightAscension` from `sunTimes.js`. -/
noncomputable def sunApparentRightAscension (cst : Constants) (T : ℝ) : ℝ :=
  let Omega := moonAscendingNodeLongitude cst T
  let epsilon := trueObliquityOfEcliptic cst T + 0.00256 * cosd Omega
  let lambda := sunApparentLongitude cst T
  reduceAngle (rad2deg (atan2 (cosd epsilon * sind lambda) (cosd lambda)))

/-- Embeds `sunApparentDeclination` from `sunTimes.js`. -/
noncomputable def sunApparentDeclination (cst : Constants) (T : ℝ) : ℝ :=
  let Omega := moonAscendingNodeLongitude cst T
  let epsilon := trueObliquityOfEcliptic cst T + 0.00256 * cosd Omega
  let lambda := sunApparentLongitude cst T
  rad2deg (Real.arcsin (sind epsilon * sind lambda))

/-- Embeds `approxLocalHourAngle` from `sunTimes.js`; the two `throw`
statements become the error branch of an `Except` value. -/
noncomputable def approxLocalHourAngle (phi delta offset : ℝ) :
    Except NoEventCode ℝ :=
  let cosH0 := (sind (-offset) - sind phi * sind delta) / (cosd phi * cosd delta)
  if cosH0 < -1 then Except.error NoEventCode.SUN_HIGH
  else if cosH0 > 1 then Except.error NoEventCode.SUN_LOW
  else Except.ok (rad2deg (Real.arccos cosH0))

/-- Embeds `normalizeM` from `sunTimes.js`. -/
noncomputable def normalizeM (m utcOffset : ℝ) : ℝ :=
  let localM := m + utcOffset / 1440
  if localM < 0 then m + 1
  else if localM > 1 then m - 1
  else m

/-- Embeds `localHourAngle` from `sunTimes.js`. -/
noncomputable def localHourAngle (theta0 L alpha : ℝ) : ℝ :=
  let H := reduceAngle (theta0 + L - alpha)
  if H > 180 then H - 360 else H

/-- Embeds `altitude` from `sunTimes.js`. -/
noncomputable def altitude (phi delta H : ℝ) : ℝ :=
  rad2deg (Real.arcsin
    (sind phi * sind delta + cosd phi * cosd delta * cosd H))

/-- Embeds `interpolatedRa` from `sunTimes.js`: three right-ascension samples
interpolated with the wraparound pre-correction, then reduced. -/
noncomputable def interpolatedRa (cst : Constants) (T n : ℝ) : ℝ :=
  let alpha1 := sunApparentRightAscension cst (T - 1 / 36525)
  let alpha2 := sunApparentRightAscension cst T
  let alpha3 := sunApparentRightAscension cst (T + 1 / 36525)
  reduceAngle (interpolateFromThree alpha1 alpha2 alpha3 n true)

/-- Embeds `interpolatedDec` from `sunTimes.js`: three declination samples
interpolated without the wraparound pre-correction; note that the source then
applies `reduceAngle` to the interpolated value. -/
noncomputable def interpolatedDec (cst : Constants) (T n : ℝ) : ℝ :=
  let delta1 := sunApparentDeclination cst (T - 1 / 36525)
  let delta2 := sunApparentDeclination cst T
  let delta3 := sunApparentDeclination cst (T + 1 / 36525)
  reduceAngle (interpolateFromThree delta1 delta2 delta3 n false)

/-- Embeds `sunTransitCorrection` from `sunTimes.js`. -/
noncomputable def sunTransitCorrection (cst : Constants)
    (T Theta0 DeltaT L m : ℝ) : ℝ :=
  let theta0 := Theta0 + 360.985647 * m
  let n := m + DeltaT / 864000
  let alpha := interpolatedRa cst T n
  let H := localHourAngle theta0 L alpha;
  -H / 360

/-- Embeds `sunRiseSetCorrection` from `sunTimes.js`. -/
noncomputable def sunRiseSetCorrection (cst : Constants)
    (T Theta0 DeltaT phi L m offset : ℝ) : ℝ :=
  let theta0 := Theta0 + 360.985647 * m
  let n := m + DeltaT / 864000
  let alpha := interpolatedRa cst T n
  let delta := interpolatedDec cst T n
  let H := localHourAngle theta0 L alpha
  let h := altitude phi delta H
  (h + offset) / (360 * cosd delta * cosd phi * sind H)

/-- Embeds the `while` correction loop of `sunRiseSet` (lines 70–77): repeat
while the previous correction exceeds 0.0001 in magnitude and fewer than 3
iterations have run; returns the refined fraction and the iteration count. -/
noncomputable def riseSetIter (corr : ℝ → ℝ) (m DeltaM : ℝ) (counter : ℕ) :
    ℝ × ℕ :=
  if h : 0.0001 < |DeltaM| ∧ counter < 3 then
    riseSetIter corr (m + corr m) (corr m) (counter + 1)
  else (m, counter)
termination_by 3 - counter
decreasing_by omega

/-- Model of the external calendar capability (luxon): localizing the
converged fraction `m` of `sunRiseSet` (lines 78–85) relative to the
UTC-midnight instant `t0` (in absolute seconds), with the optional
minute-rounding step (add 30 s, truncate seconds to 0). -/
noncomputable def localizeRiseSet (rnd : Bool) (t0 : ℤ) (m : ℝ) : ℤ :=
  let s : ℤ := ⌊m * 3600 * 24 + 0.5⌋
  let t := if 0 < m then t0 + s else t0 - s
  if rnd then (t + 30) - (t + 30) % 60 else t

/-- Model of the external calendar capability (luxon): localizing the
fraction `m` of `sunTransit` (lines 27–30), which adds the rounded offset
unconditionally. -/
noncomputable def localizeTransit (rnd : Bool) (t0 : ℤ) (m : ℝ) : ℤ :=
  let t := t0 + ⌊m * 3600 * 24 + 0.5⌋
  if rnd then (t + 30) - (t + 30) % 60 else t

/-- Result of `sunRiseSet`: an event instant, a propagated no-event
classification (the JavaScript `throw`), or the `return false` rejection of
an unrecognized flag. -/
inductive RiseSetResult where
  | time (t : ℤ)
  | noEvent (c : NoEventCode)
  | invalidFlag
  deriving DecidableEq, Repr

/-- The correction loop of `sunRiseSet` started as in the source (`DeltaM = 1`,
`counter = 0`), returning the refined fraction. -/
noncomputable def riseSetM (cst : Constants)
    (T Theta0 DeltaT phi L offset m : ℝ) : ℝ :=
  (riseSetIter (fun mm => sunRiseSetCorrection cst T Theta0 DeltaT phi L mm offset)
    m 1 0).1

/-- Embeds `sunRiseSet` from `sunTimes.js`.  The external collaborators are
parameters: `rnd` is the `roundToNearestMinute` flag, `t0` the UTC-midnight
instant of the input date in absolute seconds, `utcOff` the caller zone's UTC
offset in minutes, `DeltaT` and `T` the values supplied by the external
calendar/DeltaT provider for that midnight. -/
noncomputable def sunRiseSet (cst : Constants) (rnd : Bool) (t0 : ℤ)
    (utcOff DeltaT T phi L : ℝ) (flag : String) (offset : ℝ) : RiseSetResult :=
  let Theta0 := apparentSiderealTimeGreenwich cst T
  let TD := T - DeltaT / (3600 * 24 * 36525)
  let alpha := sunApparentRightAscension cst TD
  let delta := sunApparentDeclination cst TD
  match approxLocalHourAngle phi delta offset with
  | Except.error c => RiseSetResult.noEvent c
  | Except.ok H0 =>
    let m0 := normalizeM ((alpha - L - Theta0) / 360) utcOff
    if flag = "RISE" then
      RiseSetResult.time (localizeRiseSet rnd t0
        (riseSetM cst T Theta0 DeltaT phi L offset (m0 - H0 / 360)))
    else if flag = "SET" then
      RiseSetResult.time (localizeRiseSet rnd t0
        (riseSetM cst T Theta0 DeltaT phi L offset (m0 + H0 / 360)))
    else RiseSetResult.invalidFlag

/-- Embeds `sunTransit` from `sunTimes.js`, with the same external
parameters as `sunRiseSet`. -/
noncomputable def sunTransit (cst : Constants) (rnd : Bool) (t0 : ℤ)
    (utcOff DeltaT T L : ℝ) : ℤ :=
  let Theta0 := apparentSiderealTimeGreenwich cst T
  let TD := T - DeltaT / (3600 * 24 * 36525)
  let alpha := sunApparentRightAscension cst TD
  let m0 := normalizeM ((alpha - L - Theta0) / 360) utcOff
  let m := m0 + sunTransitCorrection cst T Theta0 DeltaT L m0
  localizeTransit rnd t0 m

/-- Model of the external calendar instant consumed by `handleNoEventCase`:
the midnight of its calendar day (absolute seconds), the wall-clock offset
into the day, the daylight-saving flag, and the attachable error code. -/
structure DateTime where
  midnight : ℤ
  secOfDay : ℤ
  isInDST : Bool
  errorCode : Option NoEventCode
  deriving DecidableEq, Repr

/-- Embeds `handleNoEventCase` from `sunTimes.js`.  The configuration flag
`returnTime` is the `returnTimeForNoEventCase` setting read from `index.js`. -/
def handleNoEventCase (returnTime : Bool) (date : DateTime)
    (errorCode : Option NoEventCode) (hour minute : ℤ) :
    DateTime ⊕ Option NoEventCode :=
  if returnTime then
    let rd1 := { date with secOfDay := hour * 3600 + minute * 60 }
    let rd2 := { rd1 with
      secOfDay := rd1.secOfDay + (if date.isInDST then 60 else 0) * 60 }
    Sum.inl (match errorCode with
      | some c => { rd2 with errorCode := some c }
      | none => rd2)
  else Sum.inr errorCode

end SunTimes

namespace MoonPhases

/-- Embeds `meanPhase` from `moonPhases.js`. -/
noncomputable def meanPhase (T k : ℝ) : ℝ :=
  2451550.09766 + 29.530588861 * k + 0.00015437 * T * T -
    0.000000150 * T * T * T + 0.00000000073 * T * T * T * T

/-- Embeds `sunMeanAnomaly` from `moonPhases.js` (distinct from the
solar-position series of the same name). -/
noncomputable def sunMeanAnomaly (T k : ℝ) : ℝ :=
  2.5534 + 29.10535670 * k - 0.0000014 * T * T - 0.00000011 * T * T * T

/-- Embeds `moonMeanAnomaly` from `moonPhases.js`. -/
noncomputable def moonMeanAnomaly (T k : ℝ) : ℝ :=
  201.5643 + 385.81693528 * k + 0.0107582 * T * T + 0.00001238 * T * T * T -
    0.000000058 * T * T * T * T

/-- Embeds `moonArgumentOfLatitude` from `moonPhases.js`. -/
noncomputable def moonArgumentOfLatitude (T k : ℝ) : ℝ :=
  160.7108 + 390.67050284 * k - 0.0016118 * T * T - 0.00000227 * T * T * T +
    0.000000011 * T * T * T * T

/-- Embeds `moonAscendingNodeLongitude` from `moonPhases.js`. -/
noncomputable def moonAscendingNodeLongitude (T k : ℝ) : ℝ :=
  124.7746 - 1.56375588 * k + 0.0020672 * T * T + 0.00000215 * T * T * T

/-- Embeds `eccentricityCorrection` from `moonPhases.js`. -/
noncomputable def eccentricityCorrection (T : ℝ) : ℝ :=
  1 - 0.002516 * T - 0.0000074 * T * T

/-- Embeds `planetaryArguments` from `moonPhases.js`: the list is indexed from
1 following the numbering convention of the reference text, with a dummy 0 at
index 0. -/
noncomputable def planetaryArguments (T k : ℝ) : List ℝ :=
  [0,
   299.77 + 0.107408 * k - 0.009173 * T * T,
   251.88 + 0.016321 * k,
   251.83 + 26.651886 * k,
   349.42 + 36.412478 * k,
   84.66 + 18.206239 * k,
   141.74 + 53.303771 * k,
   207.14 + 2.453732 * k,
   154.84 + 7.306860 * k,
   34.52 + 27.261239 * k,
   207.19 + 0.121824 * k,
   291.34 + 1.844379 * k,
   161.72 + 24.198154 * k,
   239.56 + 25.513099 * k,
   331.55 + 3.592518 * k]

/-- Embeds `commonCorrections` from `moonPhases.js`: the fixed 14-coefficient
sine sum over the planetary arguments, added unconditionally to every phase. -/
noncomputable def commonCorrections (A : List ℝ) : ℝ :=
  0.000325 * sind (A.getD 1 0) +
    0.000165 * sind (A.getD 2 0) +
    0.000164 * sind (A.getD 3 0) +
    0.000126 * sind (A.getD 4 0) +
    0.000110 * sind (A.getD 5 0) +
    0.000062 * sind (A.getD 6 0) +
    0.000060 * sind (A.getD 7 0) +
    0.000056 * sind (A.getD 8 0) +
    0.000047 * sind (A.getD 9 0) +
    0.000042 * sind (A.getD 10 0) +
    0.000040 * sind (A.getD 11 0) +
    0.000037 * sind (A.getD 12 0) +
    0.000035 * sind (A.getD 13 0) +
    0.000023 * sind (A.getD 14 0)

/-- Embeds `newMoonFullMoonCorrections` from `moonPhases.js`: the shared
minor-term series plus the leading series selected by phase 0 (new moon) or
phase 2 (full moon). -/
noncomputable def newMoonFullMoonCorrections (E M MPrime F Omega : ℝ)
    (phase : ℚ) : ℝ :=
  let DeltaJDE :=
    -0.00111 * sind (MPrime - 2 * F) -
    0.00057 * sind (MPrime + 2 * F) +
    0.00056 * E * sind (2 * MPrime + M) -
    0.00042 * sind (3 * MPrime) +
    0.00042 * E * sind (M + 2 * F) +
    0.00038 * E * sind (M - 2 * F) -
    0.00024 * E * sind (2 * MPrime - M) -
    0.00017 * sind Omega -
    0.00007 * sind (MPrime + 2 * M) +
    0.00004 * sind (2 * MPrime - 2 * F) +
    0.00004 * sind (3 * M) +
    0.00003 * sind (MPrime + M - 2 * F) +
    0.00003 * sind (2 * MPrime + 2 * F) -
    0.00003 * sind (MPrime + M + 2 * F) +
    0.00003 * sind (MPrime - M + 2 * F) -
    0.00002 * sind (MPrime - M - 2 * F) -
    0.00002 * sind (3 * MPrime + M) +
    0.00002 * sind (4 * MPrime)
  if phase = 0 then
    DeltaJDE +
      (-0.40720 * sind MPrime +
       0.17241 * E * sind M +
       0.01608 * sind (2 * MPrime) +
       0.01039 * sind (2 * F) +
       0.00739 * E * sind (MPrime - M) -
       0.00514 * E * sind (MPrime + M) +
       0.00208 * E * E * sind (2 * M))
  else if phase = 2 then
    DeltaJDE +
      (-0.40614 * sind MPrime +
       0.17302 * E * sind M +
       0.01614 * sind (2 * MPrime) +
       0.01043 * sind (2 * F) +
       0.00734 * E * sind (MPrime - M) -
       0.00515 * E * sind (MPrime + M) +
       0.00209 * E * E * sind (2 * M))
  else DeltaJDE

/-- The 25-term quarter-phase base series of `quarterCorrections` in
`moonPhases.js`, named separately so the claims can speak about the series
without the `W` term. -/
noncomputable def quarterSeries (E M MPrime F Omega : ℝ) : ℝ :=
  -0.62801 * sind MPrime +
    0.17172 * E * sind M -
    0.01183 * E * sind (MPrime + M) +
    0.00862 * sind (2 * MPrime) +
    0.00804 * sind (2 * F) +
    0.00454 * E * sind (MPrime - M) +
    0.00204 * E * E * sind (2 * M) -
    0.00180 * sind (MPrime - 2 * F) -
    0.00070 * sind (MPrime + 2 * F) -
    0.00040 * sind (3 * MPrime) -
    0.00034 * E * sind (2 * MPrime - M) +
    0.00032 * E * sind (M + 2 * F) +
    0.00032 * E * sind (M - 2 * F) -
    0.00028 * E * E * sind (MPrime + 2 * M) +
    0.00027 * E * sind (2 * MPrime + M) -
    0.00017 * sind Omega -
    0.00005 * sind (MPrime - M - 2 * F) +
    0.00004 * sind (2 * MPrime + 2 * F) -
    0.00004 * sind (MPrime + M + 2 * F) +
    0.00004 * sind (MPrime - 2 * M) +
    0.00003 * sind (MPrime + M - 2 * F) +
    0.00003 * sind (3 * M) +
    0.00002 * sind (2 * MPrime - 2 * F) +
    0.00002 * sind (MPrime - M + 2 * F) -
    0.00002 * sind (3 * MPrime + M)

/-- The `W` term of `quarterCorrections` in `moonPhases.js`: a constant plus a
small 5-term cosine series, added for the first quarter and subtracted for the
last quarter. -/
noncomputable def quarterW (E M MPrime F : ℝ) : ℝ :=
  0.00306 -
    0.00038 * E * cosd M +
    0.00026 * cosd MPrime -
    0.00002 * cosd (MPrime - M) +
    0.00002 * cosd (MPrime + M) +
    0.00002 * cosd (2 * F)

/-- Embeds `quarterCorrections` from `moonPhases.js`. -/
noncomputable def quarterCorrections (E M MPrime F Omega : ℝ) (phase : ℚ) : ℝ :=
  let DeltaJDE := quarterSeries E M MPrime F Omega
  let W := quarterW E M MPrime F
  if phase = 1 then DeltaJDE + W
  else if phase = 3 then DeltaJDE - W
  else DeltaJDE

/-- Embeds `truePhase` from `moonPhases.js`.  The Julian-century conversion
`kToT` (`timeConversions.js`) is an external collaborator passed as a
parameter; the phase selector is a rational so the equality tests of the
source are decidable. -/
noncomputable def truePhase (kToT : ℝ → ℝ) (k0 : ℝ) (phase : ℚ) : ℝ :=
  let k := k0 + (phase : ℝ) / 4
  let T := kToT k
  let E := eccentricityCorrection T
  let JDE := meanPhase T k
  let M := sunMeanAnomaly T k
  let MPrime := moonMeanAnomaly T k
  let F := moonArgumentOfLatitude T k
  let Omega := moonAscendingNodeLongitude T k
  let A := planetaryArguments T k
  let DeltaJDE :=
    if phase = 0 ∨ phase = 2 then
      newMoonFullMoonCorrections E M MPrime F Omega phase
    else if phase = 1 ∨ phase = 3 then
      quarterCorrections E M MPrime F Omega phase
    else 0
  JDE + (DeltaJDE + commonCorrections A)

end MoonPhases

/-- The process-wide environment of a core call: the external constant tables
and conversion providers together with the two module-level configuration
flags of `index.js` (which the solver reads as shared state). -/
structure Env where
  cst : Constants
  roundToNearestMinute : Bool
  returnTimeForNoEventCase : Bool
  DeltaT : ℤ → ℝ
  datetimeToT : ℤ → ℝ
  kToT : ℝ → ℝ

/-- `sunRiseSet` invoked in an environment: the DeltaT and Julian-century
values are obtained from the environment's providers at the midnight instant,
and the rounding flag is read from the environment. -/
noncomputable def sunRiseSetEnv (e : Env) (t0 : ℤ) (utcOff phi L : ℝ)
    (flag : String) (offset : ℝ) : SunTimes.RiseSetResult :=
  SunTimes.sunRiseSet e.cst e.roundToNearestMinute t0 utcOff (e.DeltaT t0)
    (e.datetimeToT t0) phi L flag offset

/-- `sunTransit` invoked in an environment. -/
noncomputable def sunTransitEnv (e : Env) (t0 : ℤ) (utcOff L : ℝ) : ℤ :=
  SunTimes.sunTransit e.cst e.roundToNearestMinute t0 utcOff (e.DeltaT t0)
    (e.datetimeToT t0) L

/-- `truePhase` invoked in an environment. -/
noncomputable def truePhaseEnv (e : Env) (k : ℝ) (phase : ℚ) : ℝ :=
  MoonPhases.truePhase e.kToT k phase

/-- The plain Bessel-style three-point interpolation formula with no
wraparound pre-correction, used by the claims to compare against the solver's
interpolation calls. -/
noncomputable def besselInterp (y1 y2 y3 n : ℝ) : ℝ :=
  y2 + (n / 2) * ((y2 - y1) + (y3 - y2) + n * ((y3 - y2) - (y2 - y1)))

/-- The all-zero nutation table, used when instantiating the external
constant tables at concrete values. -/
def zeroNutationTable : ℕ → NutationRow := fun _ => ⟨0, 0, 0, 0, 0, 0, 0, 0, 0⟩

lemma reduceAngle_eq_self {x : ℝ} (h0 : 0 ≤ x) (h1 : x < 360) :
    reduceAngle x = x := by
  have hf : ⌊x / 360⌋ = 0 := by
    rw [Int.floor_eq_zero_iff]
    exact ⟨div_nonneg h0 (by norm_num), by
      rw [div_lt_one (by norm_num : (0:ℝ) < 360)]; exact h1⟩
  simp [reduceAngle, hf]

lemma reduceAngle_of_neg {x : ℝ} (h0 : -360 ≤ x) (h1 : x < 0) :
    reduceAngle x = x + 360 := by
  have hf : ⌊x / 360⌋ = -1 := by
    rw [Int.floor_eq_iff]
    constructor
    · push_cast
      linarith
    · push_cast
      linarith
  rw [reduceAngle, hf]
  push_cast
  ring

lemma reduceAngle_of_between {x : ℝ} (h0 : 360 ≤ x) (h1 : x < 720) :
    reduceAngle x = x - 360 := by
  have hf : ⌊x / 360⌋ = 1 := by
    rw [Int.floor_eq_iff]
    constructor
    · push_cast
      linarith
    · push_cast
      linarith
  rw [reduceAngle, hf]
  push_cast
  ring

lemma sind_zero : sind 0 = 0 := by simp [sind]

lemma cosd_zero : cosd 0 = 1 := by simp [cosd]

lemma sind_ninety : sind 90 = 1 := by
  have h : (90 : ℝ) * π / 180 = π / 2 := by ring
  rw [sind, h, Real.sin_pi_div_two]

lemma cosd_ninety : cosd 90 = 0 := by
  have h : (90 : ℝ) * π / 180 = π / 2 := by ring
  rw [cosd, h, Real.cos_pi_div_two]

lemma sind_thirty : sind 30 = 1 / 2 := by
  have h : (30 : ℝ) * π / 180 = π / 6 := by ring
  rw [sind, h, Real.sin_pi_div_six]

lemma sind_sixty : sind 60 = Real.sqrt 3 / 2 := by
  have h : (60 : ℝ) * π / 180 = π / 3 := by ring
  rw [sind, h, Real.sin_pi_div_three]

lemma cosd_sixty : cosd 60 = 1 / 2 := by
  have h : (60 : ℝ) * π / 180 = π / 3 := by ring
  rw [cosd, h, Real.cos_pi_div_three]

lemma sind_twoseventy : sind 270 = -1 := by
  have h : (270 : ℝ) * π / 180 = π + π / 2 := by ring
  rw [sind, h, Real.sin_add]
  simp

lemma rad2deg_zero : rad2deg 0 = 0 := by simp [rad2deg]

lemma rad2deg_pi_div_three : rad2deg (π / 3) = 60 := by
  rw [rad2deg, div_eq_iff Real.pi_ne_zero]
  ring

lemma rad2deg_neg_pi_div_six : rad2deg (-(π / 6)) = -30 := by
  rw [rad2deg, div_eq_iff Real.pi_ne_zero]
  ring

lemma polynomial_single (x c : ℝ) : polynomial x [c] = c := by
  simp [polynomial]

namespace SunTimes

lemma nutationInLongitude_of_zeroTable {cst : Constants}
    (h : cst.nutations = zeroNutationTable) (T : ℝ) :
    nutationInLongitude cst T = 0 := by
  unfold nutationInLongitude
  rw [h]
  simp [zeroNutationTable]

lemma nutationInObliquity_of_zeroTable {cst : Constants}
    (h : cst.nutations = zeroNutationTable) (T : ℝ) :
    nutationInObliquity cst T = 0 := by
  unfold nutationInObliquity
  rw [h]
  simp [zeroNutationTable]

lemma trueObliquity_of_single {cst : Constants} {e : ℝ}
    (h1 : cst.meanObliquityOfEcliptic = [e])
    (h2 : cst.nutations = zeroNutationTable) (T : ℝ) :
    trueObliquityOfEcliptic cst T = e := by
  unfold trueObliquityOfEcliptic meanObliquityOfEcliptic
  rw [h1, polynomial_single, nutationInObliquity_of_zeroTable h2, add_zero]

lemma moonAscendingNodeLongitude_ninety {cst : Constants}
    (h : cst.moonAscendingNodeLongitude = [90]) (T : ℝ) :
    moonAscendingNodeLongitude cst T = 90 := by
  unfold moonAscendingNodeLongitude
  rw [h, polynomial_single]
  exact reduceAngle_eq_self (by norm_num) (by norm_num)

lemma sunMeanAnomaly_zero {cst : Constants}
    (h : cst.sunMeanAnomaly = [0]) (T : ℝ) :
    sunMeanAnomaly cst T = 0 := by
  unfold sunMeanAnomaly
  rw [h, polynomial_single]
  exact reduceAngle_eq_self le_rfl (by norm_num)

lemma sunEquationOfCenter_zero {cst : Constants}
    (h : cst.sunMeanAnomaly = [0]) (T : ℝ) :
    sunEquationOfCenter cst T = 0 := by
  unfold sunEquationOfCenter
  rw [sunMeanAnomaly_zero h]
  norm_num [sind_zero]

lemma sunApparentLongitude_eval {cst : Constants} {l0 : ℝ}
    (hL : cst.sunMeanLongitude = [l0])
    (hM : cst.sunMeanAnomaly = [0])
    (hO : cst.moonAscendingNodeLongitude = [90]) (T : ℝ) :
    sunApparentLongitude cst T = reduceAngle l0 - 0.01047 := by
  unfold sunApparentLongitude sunTrueLongitude sunMeanLongitude
  rw [hL, polynomial_single, sunEquationOfCenter_zero hM,
    moonAscendingNodeLongitude_ninety hO, sind_ninety]
  ring

lemma sunApparentDeclination_eval {cst : Constants} {e l0 : ℝ}
    (hE : cst.meanObliquityOfEcliptic = [e])
    (hN : cst.nutations = zeroNutationTable)
    (hL : cst.sunMeanLongitude = [l0])
    (hM : cst.sunMeanAnomaly = [0])
    (hO : cst.moonAscendingNodeLongitude = [90]) (T : ℝ) :
    sunApparentDeclination cst T =
      rad2deg (Real.arcsin (sind e * sind (reduceAngle l0 - 0.01047))) := by
  simp only [sunApparentDeclination, moonAscendingNodeLongitude_ninety hO,
    trueObliquity_of_single hE hN, cosd_ninety,
    sunApparentLongitude_eval hL hM hO, mul_zero, add_zero]

lemma sunApparentRightAscension_eval {cst : Constants} {e l0 : ℝ}
    (hE : cst.meanObliquityOfEcliptic = [e])
    (hN : cst.nutations = zeroNutationTable)
    (hL : cst.sunMeanLongitude = [l0])
    (hM : cst.sunMeanAnomaly = [0])
    (hO : cst.moonAscendingNodeLongitude = [90]) (T : ℝ) :
    sunApparentRightAscension cst T =
      reduceAngle (rad2deg (atan2 (cosd e * sind (reduceAngle l0 - 0.01047))
        (cosd (reduceAngle l0 - 0.01047)))) := by
  simp only [sunApparentRightAscension, moonAscendingNodeLongitude_ninety hO,
    trueObliquity_of_single hE hN, cosd_ninety,
    sunApparentLongitude_eval hL hM hO, mul_zero, add_zero]

end SunTimes

/-- A concrete external constant table (single-coefficient polynomials, zero
nutation table) under which the whole transit computation evaluates to exact
rationals: the apparent longitude is identically 0. -/
noncomputable def cstTransit : Constants where
  meanObliquityOfEcliptic := [0]
  moonArgumentOfLatitude := [0]
  moonAscendingNodeLongitude := [90]
  moonMeanAnomaly := [0]
  moonMeanElongation := [0]
  sunMeanAnomaly := [0]
  sunMeanLongitude := [0.01047]
  nutations := zeroNutationTable

/-- A concrete external constant table making the apparent declination
identically −30° (obliquity 30°, apparent longitude 270°). -/
noncomputable def cstDecl : Constants where
  meanObliquityOfEcliptic := [30]
  moonArgumentOfLatitude := [0]
  moonAscendingNodeLongitude := [90]
  moonMeanAnomaly := [0]
  moonMeanElongation := [0]
  sunMeanAnomaly := [0]
  sunMeanLongitude := [270.01047]
  nutations := zeroNutationTable

/-- A concrete external constant table making the apparent declination
identically 60° (obliquity 90°, apparent longitude 60°). -/
noncomputable def cstHigh : Constants where
  meanObliquityOfEcliptic := [90]
  moonArgumentOfLatitude := [0]
  moonAscendingNodeLongitude := [90]
  moonMeanAnomaly := [0]
  moonMeanElongation := [0]
  sunMeanAnomaly := [0]
  sunMeanLongitude := [60.01047]
  nutations := zeroNutationTable

/-- A concrete external constant table making the apparent declination
identically 0° (obliquity 0). -/
noncomputable def cstFlat : Constants where
  meanObliquityOfEcliptic := [0]
  moonArgumentOfLatitude := [0]
  moonAscendingNodeLongitude := [90]
  moonMeanAnomaly := [0]
  moonMeanElongation := [0]
  sunMeanAnomaly := [0]
  sunMeanLongitude := [0]
  nutations := zeroNutationTable

namespace SunTimes

lemma atan2_zero_one : atan2 0 1 = 0 := by
  have h : (⟨1, 0⟩ : ℂ) = 1 := by
    apply Complex.ext <;> simp
  rw [atan2, h, Complex.arg_one]

lemma arcsin_one_half_pi : Real.arcsin (1 / 2) = π / 6 := by
  rw [show (1 : ℝ) / 2 = Real.sin (π / 6) from Real.sin_pi_div_six.symm]
  exact Real.arcsin_sin (by linarith [Real.pi_pos]) (by linarith [Real.pi_pos])

lemma arcsin_sqrt_three_half : Real.arcsin (Real.sqrt 3 / 2) = π / 3 := by
  rw [show Real.sqrt 3 / 2 = Real.sin (π / 3) from Real.sin_pi_div_three.symm]
  exact Real.arcsin_sin (by linarith [Real.pi_pos]) (by linarith [Real.pi_pos])

lemma cstTransit_declination (T : ℝ) : sunApparentDeclination cstTransit T = 0 := by
  rw [sunApparentDeclination_eval rfl rfl rfl rfl rfl,
    reduceAngle_eq_self (by norm_num) (by norm_num)]
  norm_num [sind_zero, Real.arcsin_zero, rad2deg_zero]

lemma cstTransit_ra (T : ℝ) : sunApparentRightAscension cstTransit T = 0 := by
  rw [sunApparentRightAscension_eval rfl rfl rfl rfl rfl,
    reduceAngle_eq_self (by norm_num : (0:ℝ) ≤ 0.01047) (by norm_num)]
  have h0 : (0.01047 : ℝ) - 0.01047 = 0 := by norm_num
  rw [h0, sind_zero, cosd_zero, mul_zero, atan2_zero_one, rad2deg_zero]
  exact reduceAngle_eq_self le_rfl (by norm_num)

lemma cstTransit_interpRa (n : ℝ) : interpolatedRa cstTransit 0 n = 0 := by
  simp only [interpolatedRa, cstTransit_ra]
  have h : interpolateFromThree 0 0 0 n true = 0 := by
    simp only [interpolateFromThree, recenter]
    norm_num
  rw [h]
  exact reduceAngle_eq_self le_rfl (by norm_num)

lemma cstTransit_sidereal : apparentSiderealTimeGreenwich cstTransit 0 = 280.46061837 := by
  have h1 : meanSiderealTimeGreenwich 0 = 280.46061837 := by
    unfold meanSiderealTimeGreenwich
    norm_num
  unfold apparentSiderealTimeGreenwich
  rw [h1, nutationInLongitude_of_zeroTable rfl, zero_mul, add_zero]
  exact reduceAngle_eq_self (by norm_num) (by norm_num)

lemma cstDecl_declination (T : ℝ) : sunApparentDeclination cstDecl T = -30 := by
  rw [sunApparentDeclination_eval rfl rfl rfl rfl rfl,
    reduceAngle_eq_self (by norm_num : (0:ℝ) ≤ 270.01047) (by norm_num)]
  have h0 : (270.01047 : ℝ) - 0.01047 = 270 := by norm_num
  rw [h0, sind_thirty, sind_twoseventy]
  have h1 : (1 / 2 : ℝ) * -1 = -(1 / 2) := by norm_num
  rw [h1, Real.arcsin_neg, arcsin_one_half_pi, rad2deg_neg_pi_div_six]

lemma cstHigh_declination (T : ℝ) : sunApparentDeclination cstHigh T = 60 := by
  rw [sunApparentDeclination_eval rfl rfl rfl rfl rfl,
    reduceAngle_eq_self (by norm_num : (0:ℝ) ≤ 60.01047) (by norm_num)]
  have h0 : (60.01047 : ℝ) - 0.01047 = 60 := by norm_num
  rw [h0, sind_ninety, sind_sixty, one_mul, arcsin_sqrt_three_half,
    rad2deg_pi_div_three]

lemma cstFlat_declination (T : ℝ) : sunApparentDeclination cstFlat T = 0 := by
  rw [sunApparentDeclination_eval rfl rfl rfl rfl rfl, sind_zero, zero_mul,
    Real.arcsin_zero, rad2deg_zero]

lemma riseSetIter_counter_le (corr : ℝ → ℝ) :
    ∀ (fuel : ℕ) (m DeltaM : ℝ) (c : ℕ), c + fuel = 3 →
      (riseSetIter corr m DeltaM c).2 ≤ 3 := by
  intro fuel
  induction fuel with
  | zero =>
    intro m DeltaM c hc
    rw [riseSetIter, dif_neg]
    · simp
      omega
    · intro h
      omega
  | succ fuel ih =>
    intro m DeltaM c hc
    by_cases hb : 0.0001 < |DeltaM| ∧ c < 3
    · rw [riseSetIter, dif_pos hb]
      exact ih _ _ (c + 1) (by omega)
    · rw [riseSetIter, dif_neg hb]
      simp
      omega

end SunTimes

/-- C3: the rise/set correction loop executes at most 3 iterations, stops as
soon as the correction magnitude falls to 0.0001 or below (after the first
or second iteration correspondingly), and the transit computation applies the
correction `ΔM = −H/360` exactly once with no loop. -/
theorem riseSet_iteration_bound : ∀ (corr : ℝ → ℝ) (m : ℝ),
    (SunTimes.riseSetIter corr m 1 0).2 ≤ 3 ∧
    (|corr m| ≤ 0.0001 →
      SunTimes.riseSetIter corr m 1 0 = (m + corr m, 1)) ∧
    (0.0001 < |corr m| → |corr (m + corr m)| ≤ 0.0001 →
      SunTimes.riseSetIter corr m 1 0 =
        (m + corr m + corr (m + corr m), 2)) ∧
    (∀ (cst : Constants) (rnd : Bool) (t0 : ℤ) (utcOff DeltaT T L : ℝ),
      SunTimes.sunTransit cst rnd t0 utcOff DeltaT T L =
        SunTimes.localizeTransit rnd t0
          (SunTimes.normalizeM ((SunTimes.sunApparentRightAscension cst
              (T - DeltaT / (3600 * 24 * 36525)) - L -
              SunTimes.apparentSiderealTimeGreenwich cst T) / 360) utcOff +
           SunTimes.sunTransitCorrection cst T
             (SunTimes.apparentSiderealTimeGreenwich cst T) DeltaT L
             (SunTimes.normalizeM ((SunTimes.sunApparentRightAscension cst
               (T - DeltaT / (3600 * 24 * 36525)) - L -
               SunTimes.apparentSiderealTimeGreenwich cst T) / 360) utcOff))) := by
  intro corr m
  refine ⟨SunTimes.riseSetIter_counter_le corr 3 m 1 0 rfl, fun h => ?_,
    fun h1 h2 => ?_, fun cst rnd t0 utcOff DeltaT T L => rfl⟩
  · rw [SunTimes.riseSetIter, dif_pos (by norm_num : (0.0001:ℝ) < |1| ∧ 0 < 3)]
    rw [SunTimes.riseSetIter, dif_neg]
    intro hc
    exact absurd hc.1 (not_lt.mpr h)
  · rw [SunTimes.riseSetIter, dif_pos (by norm_num : (0.0001:ℝ) < |1| ∧ 0 < 3)]
    rw [SunTimes.riseSetIter, dif_pos ⟨h1, by norm_num⟩]
    rw [SunTimes.riseSetIter, dif_neg]
    intro hc
    exact absurd hc.1 (not_lt.mpr h2)

/-- Witness for C3 at the constant-zero correction function: the loop stops
after a single iteration and the counter bound holds. -/
theorem riseSet_iteration_bound_witness :
    SunTimes.riseSetIter (fun _ => (0:ℝ)) 0 1 0 = (0 + (0:ℝ), 1) ∧
    (SunTimes.riseSetIter (fun _ => (0:ℝ)) 0 1 0).2 ≤ 3 := by
  constructor
  · exact (riseSet_iteration_bound (fun _ => (0:ℝ)) 0).2.1 (by norm_num)
  · exact (riseSet_iteration_bound (fun _ => (0:ℝ)) 0).1

/-- C6 (amended): `normalizeM` adds one whole day when the offset-adjusted
fraction is below 0, subtracts one when it exceeds 1 strictly, and returns the
fraction unchanged when the adjusted value lies in the closed interval [0,1]. -/
theorem normalizeM_spec : ∀ m utcOffset : ℝ,
    (m + utcOffset / 1440 < 0 → SunTimes.normalizeM m utcOffset = m + 1) ∧
    (1 < m + utcOffset / 1440 → SunTimes.normalizeM m utcOffset = m - 1) ∧
    (0 ≤ m + utcOffset / 1440 → m + utcOffset / 1440 ≤ 1 →
      SunTimes.normalizeM m utcOffset = m) := by
  intro m off
  refine ⟨fun h => ?_, fun h => ?_, fun h1 h2 => ?_⟩
  · simp only [SunTimes.normalizeM]
    rw [if_pos h]
  · simp only [SunTimes.normalizeM]
    rw [if_neg (by linarith), if_pos h]
  · simp only [SunTimes.normalizeM]
    rw [if_neg (by linarith), if_neg (by linarith)]

/-- Witness for C6 exercising all three branches of `normalizeM` at concrete
inputs. -/
theorem normalizeM_spec_witness :
    SunTimes.normalizeM (-1) 0 = 0 ∧ SunTimes.normalizeM (3/2) 0 = 1/2 ∧
    SunTimes.normalizeM (1/2) 0 = 1/2 := by
  refine ⟨?_, ?_, ?_⟩
  · rw [(normalizeM_spec (-1) 0).1 (by norm_num)]
    norm_num
  · rw [(normalizeM_spec (3/2) 0).2.1 (by norm_num)]
    norm_num
  · exact (normalizeM_spec (1/2) 0).2.2 (by norm_num) (by norm_num)

/-- Counterexample for C6 as stated: at the boundary `m + utcOffset/1440 = 1`
the code keeps `m` unchanged, whereas the claim requires subtracting one whole
day for every adjusted value `≥ 1`. -/
theorem normalizeM_boundary_counterexample :
    SunTimes.normalizeM 1 0 = 1 ∧ SunTimes.normalizeM 1 0 ≠ 1 - 1 := by
  have h : SunTimes.normalizeM 1 0 = 1 := by
    simp only [SunTimes.normalizeM]
    norm_num
  exact ⟨h, by rw [h]; norm_num⟩

/-- C7: with `returnTimeForNoEventCase` set, `handleNoEventCase` returns the
input date set to the given hour and minute with seconds 0, shifted by exactly
60 minutes precisely when daylight-saving is active, with the classification
attached; with the flag unset it returns the bare classification. -/
theorem handleNoEventCase_spec : ∀ (d : SunTimes.DateTime) (c : NoEventCode)
    (hour minute : ℤ),
    SunTimes.handleNoEventCase true d (some c) hour minute =
      Sum.inl { midnight := d.midnight,
                secOfDay := hour * 3600 + minute * 60 +
                  (if d.isInDST then 3600 else 0),
                isInDST := d.isInDST, errorCode := some c } ∧
    SunTimes.handleNoEventCase false d (some c) hour minute =
      Sum.inr (some c) := by
  intro d c hour minute
  obtain ⟨mid, sec, dst, err⟩ := d
  refine ⟨?_, ?_⟩
  · cases dst <;> simp [SunTimes.handleNoEventCase]
  · simp [SunTimes.handleNoEventCase]

/-- C1: evaluation of the Localize step at the failing input `m = −0.1`
(UTC midnight taken as instant 0, no minute-rounding).  The claim's formula
`round(m·86400)` gives −8640 s (21:36 the previous day, which is what
`sunTransit` computes), but the rise/set branch subtracts the negative floor
and lands at +8640 s after midnight. -/
theorem localize_negative_m_eval :
    SunTimes.localizeRiseSet false 0 (-(1/10)) = 8640 ∧
    SunTimes.localizeTransit false 0 (-(1/10)) = -8640 ∧
    (⌊(-(1/10) : ℝ) * 3600 * 24 + 0.5⌋ : ℤ) = -8640 := by
  have hfl : (⌊(-(1/10) : ℝ) * 3600 * 24 + 0.5⌋ : ℤ) = -8640 := by
    rw [Int.floor_eq_iff]
    constructor
    · push_cast
      norm_num
    · push_cast
      norm_num
  refine ⟨?_, ?_, hfl⟩
  · simp only [SunTimes.localizeRiseSet, hfl]
    norm_num
  · simp only [SunTimes.localizeTransit, hfl]
    norm_num

lemma truePhase_unfold (kToT : ℝ → ℝ) (k0 : ℝ) (phase : ℚ) :
    MoonPhases.truePhase kToT k0 phase =
      MoonPhases.meanPhase (kToT (k0 + (phase : ℝ) / 4)) (k0 + (phase : ℝ) / 4) +
      ((if phase = 0 ∨ phase = 2 then
          MoonPhases.newMoonFullMoonCorrections
            (MoonPhases.eccentricityCorrection (kToT (k0 + (phase : ℝ) / 4)))
            (MoonPhases.sunMeanAnomaly (kToT (k0 + (phase : ℝ) / 4)) (k0 + (phase : ℝ) / 4))
            (MoonPhases.moonMeanAnomaly (kToT (k0 + (phase : ℝ) / 4)) (k0 + (phase : ℝ) / 4))
            (MoonPhases.moonArgumentOfLatitude (kToT (k0 + (phase : ℝ) / 4)) (k0 + (phase : ℝ) / 4))
            (MoonPhases.moonAscendingNodeLongitude (kToT (k0 + (phase : ℝ) / 4)) (k0 + (phase : ℝ) / 4))
            phase
        else if phase = 1 ∨ phase = 3 then
          MoonPhases.quarterCorrections
            (MoonPhases.eccentricityCorrection (kToT (k0 + (phase : ℝ) / 4)))
            (MoonPhases.sunMeanAnomaly (kToT (k0 + (phase : ℝ) / 4)) (k0 + (phase : ℝ) / 4))
            (MoonPhases.moonMeanAnomaly (kToT (k0 + (phase : ℝ) / 4)) (k0 + (phase : ℝ) / 4))
            (MoonPhases.moonArgumentOfLatitude (kToT (k0 + (phase : ℝ) / 4)) (k0 + (phase : ℝ) / 4))
            (MoonPhases.moonAscendingNodeLongitude (kToT (k0 + (phase : ℝ) / 4)) (k0 + (phase : ℝ) / 4))
            phase
        else 0) +
       MoonPhases.commonCorrections (MoonPhases.planetaryArguments
         (kToT (k0 + (phase : ℝ) / 4)) (k0 + (phase : ℝ) / 4))) := rfl

lemma add_shuffle (a b c : ℝ) : a + (b + c) = a + c + b := by ring

lemma quarterCorrections_one (E M MPrime F Omega : ℝ) :
    MoonPhases.quarterCorrections E M MPrime F Omega 1 =
      MoonPhases.quarterSeries E M MPrime F Omega +
        MoonPhases.quarterW E M MPrime F := by
  unfold MoonPhases.quarterCorrections
  rw [if_pos rfl]

lemma quarterCorrections_three (E M MPrime F Omega : ℝ) :
    MoonPhases.quarterCorrections E M MPrime F Omega 3 =
      MoonPhases.quarterSeries E M MPrime F Omega -
        MoonPhases.quarterW E M MPrime F := by
  unfold MoonPhases.quarterCorrections
  rw [if_neg (by decide : ¬(3:ℚ) = 1), if_pos rfl]

/-- C4: for every lunation index and phase selector in {0,1,2,3}, `truePhase`
is the mean phase at `k + phase/4` plus the unconditional 14-coefficient
common planetary-argument correction plus the phase-specific series, where
the extra cosine series `W` is added for the first quarter, subtracted for
the last quarter, and absent for new and full moon. -/
theorem truePhase_structure : ∀ (kToT : ℝ → ℝ) (k : ℝ),
    MoonPhases.truePhase kToT k 0 =
      MoonPhases.meanPhase (kToT k) k +
      MoonPhases.commonCorrections (MoonPhases.planetaryArguments (kToT k) k) +
      MoonPhases.newMoonFullMoonCorrections
        (MoonPhases.eccentricityCorrection (kToT k))
        (MoonPhases.sunMeanAnomaly (kToT k) k)
        (MoonPhases.moonMeanAnomaly (kToT k) k)
        (MoonPhases.moonArgumentOfLatitude (kToT k) k)
        (MoonPhases.moonAscendingNodeLongitude (kToT k) k) 0 ∧
    MoonPhases.truePhase kToT k 2 =
      MoonPhases.meanPhase (kToT (k + 1/2)) (k + 1/2) +
      MoonPhases.commonCorrections
        (MoonPhases.planetaryArguments (kToT (k + 1/2)) (k + 1/2)) +
      MoonPhases.newMoonFullMoonCorrections
        (MoonPhases.eccentricityCorrection (kToT (k + 1/2)))
        (MoonPhases.sunMeanAnomaly (kToT (k + 1/2)) (k + 1/2))
        (MoonPhases.moonMeanAnomaly (kToT (k + 1/2)) (k + 1/2))
        (MoonPhases.moonArgumentOfLatitude (kToT (k + 1/2)) (k + 1/2))
        (MoonPhases.moonAscendingNodeLongitude (kToT (k + 1/2)) (k + 1/2)) 2 ∧
    MoonPhases.truePhase kToT k 1 =
      MoonPhases.meanPhase (kToT (k + 1/4)) (k + 1/4) +
      MoonPhases.commonCorrections
        (MoonPhases.planetaryArguments (kToT (k + 1/4)) (k + 1/4)) +
      (MoonPhases.quarterSeries
        (MoonPhases.eccentricityCorrection (kToT (k + 1/4)))
        (MoonPhases.sunMeanAnomaly (kToT (k + 1/4)) (k + 1/4))
        (MoonPhases.moonMeanAnomaly (kToT (k + 1/4)) (k + 1/4))
        (MoonPhases.moonArgumentOfLatitude (kToT (k + 1/4)) (k + 1/4))
        (MoonPhases.moonAscendingNodeLongitude (kToT (k + 1/4)) (k + 1/4)) +
       MoonPhases.quarterW
        (MoonPhases.eccentricityCorrection (kToT (k + 1/4)))
        (MoonPhases.sunMeanAnomaly (kToT (k + 1/4)) (k + 1/4))
        (MoonPhases.moonMeanAnomaly (kToT (k + 1/4)) (k + 1/4))
        (MoonPhases.moonArgumentOfLatitude (kToT (k + 1/4)) (k + 1/4))) ∧
    MoonPhases.truePhase kToT k 3 =
      MoonPhases.meanPhase (kToT (k + 3/4)) (k + 3/4) +
      MoonPhases.commonCorrections
        (MoonPhases.planetaryArguments (kToT (k + 3/4)) (k + 3/4)) +
      (MoonPhases.quarterSeries
        (MoonPhases.eccentricityCorrection (kToT (k + 3/4)))
        (MoonPhases.sunMeanAnomaly (kToT (k + 3/4)) (k + 3/4))
        (MoonPhases.moonMeanAnomaly (kToT (k + 3/4)) (k + 3/4))
        (MoonPhases.moonArgumentOfLatitude (kToT (k + 3/4)) (k + 3/4))
        (MoonPhases.moonAscendingNodeLongitude (kToT (k + 3/4)) (k + 3/4)) -
       MoonPhases.quarterW
        (MoonPhases.eccentricityCorrection (kToT (k + 3/4)))
        (MoonPhases.sunMeanAnomaly (kToT (k + 3/4)) (k + 3/4))
        (MoonPhases.moonMeanAnomaly (kToT (k + 3/4)) (k + 3/4))
        (MoonPhases.moonArgumentOfLatitude (kToT (k + 3/4)) (k + 3/4))) := by
  intro kToT k
  refine ⟨?_, ?_, ?_, ?_⟩
  · have hk : k + (((0:ℚ)) : ℝ) / 4 = k := by push_cast; ring
    rw [truePhase_unfold, hk, if_pos (by decide : (0:ℚ) = 0 ∨ (0:ℚ) = 2)]
    exact add_shuffle _ _ _
  · have hk : k + (((2:ℚ)) : ℝ) / 4 = k + 1/2 := by push_cast; ring
    rw [truePhase_unfold, hk, if_pos (by decide : (2:ℚ) = 0 ∨ (2:ℚ) = 2)]
    exact add_shuffle _ _ _
  · have hk : k + (((1:ℚ)) : ℝ) / 4 = k + 1/4 := by push_cast; ring
    rw [truePhase_unfold, hk,
      if_neg (by decide : ¬((1:ℚ) = 0 ∨ (1:ℚ) = 2)),
      if_pos (by decide : (1:ℚ) = 1 ∨ (1:ℚ) = 3), quarterCorrections_one]
    exact add_shuffle _ _ _
  · have hk : k + (((3:ℚ)) : ℝ) / 4 = k + 3/4 := by push_cast; ring
    rw [truePhase_unfold, hk,
      if_neg (by decide : ¬((3:ℚ) = 0 ∨ (3:ℚ) = 2)),
      if_pos (by decide : (3:ℚ) = 1 ∨ (3:ℚ) = 3), quarterCorrections_three]
    exact add_shuffle _ _ _

/-- C10: for a phase selector outside {0,1,2,3} `truePhase` raises no error
and returns the mean phase at `k + phase/4` plus only the common
planetary-argument corrections, both phase-specific families being skipped. -/
theorem truePhase_invalid_phase : ∀ (kToT : ℝ → ℝ) (k : ℝ) (phase : ℚ),
    ¬(phase = 0 ∨ phase = 1 ∨ phase = 2 ∨ phase = 3) →
    MoonPhases.truePhase kToT k phase =
      MoonPhases.meanPhase (kToT (k + (phase : ℝ) / 4)) (k + (phase : ℝ) / 4) +
      MoonPhases.commonCorrections (MoonPhases.planetaryArguments
        (kToT (k + (phase : ℝ) / 4)) (k + (phase : ℝ) / 4)) := by
  intro kToT k phase h
  push_neg at h
  obtain ⟨h0, h1, h2, h3⟩ := h
  rw [truePhase_unfold,
    if_neg (by tauto : ¬(phase = 0 ∨ phase = 2)),
    if_neg (by tauto : ¬(phase = 1 ∨ phase = 3)), zero_add]

lemma rad2deg_pi_div_two : rad2deg (π / 2) = 90 := by
  rw [rad2deg, div_eq_iff Real.pi_ne_zero]
  ring

lemma rad2deg_arcsin_bounds (x : ℝ) :
    -90 ≤ rad2deg (Real.arcsin x) ∧ rad2deg (Real.arcsin x) ≤ 90 := by
  constructor
  · rw [rad2deg, le_div_iff₀ Real.pi_pos]
    linarith [Real.neg_pi_div_two_le_arcsin x]
  · rw [rad2deg, div_le_iff₀ Real.pi_pos]
    linarith [Real.arcsin_le_pi_div_two x]

lemma interpolateFromThree_normalized (y1 y2 y3 n : ℝ) :
    interpolateFromThree y1 y2 y3 n true =
      besselInterp (recenter y2 y1) y2 (recenter y2 y3) n := rfl

lemma interpolateFromThree_plain (y1 y2 y3 n : ℝ) :
    interpolateFromThree y1 y2 y3 n false = besselInterp y1 y2 y3 n := rfl

/-- C2: `approxLocalHourAngle` raises SUN_HIGH exactly when the acos argument
is below −1 and SUN_LOW exactly when it exceeds 1; when the argument lies in
[−1,1] it returns a value in [0,180]; and a domain-check failure makes
`sunRiseSet` return the classification for every flag, before any correction
iteration can run. -/
theorem approxLocalHourAngle_spec : ∀ phi delta offset : ℝ,
    (SunTimes.approxLocalHourAngle phi delta offset =
        Except.error NoEventCode.SUN_HIGH ↔
      (sind (-offset) - sind phi * sind delta) / (cosd phi * cosd delta) < -1) ∧
    (SunTimes.approxLocalHourAngle phi delta offset =
        Except.error NoEventCode.SUN_LOW ↔
      1 < (sind (-offset) - sind phi * sind delta) / (cosd phi * cosd delta)) ∧
    (-1 ≤ (sind (-offset) - sind phi * sind delta) / (cosd phi * cosd delta) →
      (sind (-offset) - sind phi * sind delta) / (cosd phi * cosd delta) ≤ 1 →
      SunTimes.approxLocalHourAngle phi delta offset =
        Except.ok (rad2deg (Real.arccos ((sind (-offset) - sind phi * sind delta) /
          (cosd phi * cosd delta)))) ∧
      0 ≤ rad2deg (Real.arccos ((sind (-offset) - sind phi * sind delta) /
          (cosd phi * cosd delta))) ∧
      rad2deg (Real.arccos ((sind (-offset) - sind phi * sind delta) /
          (cosd phi * cosd delta))) ≤ 180) ∧
    (∀ (cst : Constants) (rnd : Bool) (t0 : ℤ) (utcOff DeltaT T L : ℝ)
      (flag : String) (c : NoEventCode),
      SunTimes.approxLocalHourAngle phi
        (SunTimes.sunApparentDeclination cst (T - DeltaT / (3600 * 24 * 36525)))
        offset = Except.error c →
      SunTimes.sunRiseSet cst rnd t0 utcOff DeltaT T phi L flag offset =
        SunTimes.RiseSetResult.noEvent c) := by
  intro phi delta offset
  have hunf : SunTimes.approxLocalHourAngle phi delta offset =
      if (sind (-offset) - sind phi * sind delta) / (cosd phi * cosd delta) < -1
      then Except.error NoEventCode.SUN_HIGH
      else if 1 < (sind (-offset) - sind phi * sind delta) / (cosd phi * cosd delta)
      then Except.error NoEventCode.SUN_LOW
      else Except.ok (rad2deg (Real.arccos
        ((sind (-offset) - sind phi * sind delta) / (cosd phi * cosd delta)))) := rfl
  refine ⟨?_, ?_, fun hge hle => ?_, fun cst rnd t0 utcOff DeltaT T L flag c h => ?_⟩
  · rw [hunf]
    by_cases h1 : (sind (-offset) - sind phi * sind delta) /
        (cosd phi * cosd delta) < -1
    · rw [if_pos h1]
      simp [h1]
    · rw [if_neg h1]
      by_cases h2 : 1 < (sind (-offset) - sind phi * sind delta) /
          (cosd phi * cosd delta)
      · rw [if_pos h2]
        simp [h1]
      · rw [if_neg h2]
        simp [h1]
  · rw [hunf]
    by_cases h1 : (sind (-offset) - sind phi * sind delta) /
        (cosd phi * cosd delta) < -1
    · rw [if_pos h1]
      have h2 : ¬ 1 < (sind (-offset) - sind phi * sind delta) /
          (cosd phi * cosd delta) := by linarith
      simp [h2]
    · rw [if_neg h1]
      by_cases h2 : 1 < (sind (-offset) - sind phi * sind delta) /
          (cosd phi * cosd delta)
      · rw [if_pos h2]
        simp [h2]
      · rw [if_neg h2]
        simp [h2]
  · refine ⟨by
      rw [hunf, if_neg (not_lt.mpr hge), if_neg (not_lt.mpr hle)], ?_, ?_⟩
    · rw [rad2deg]
      apply div_nonneg _ Real.pi_pos.le
      exact mul_nonneg (Real.arccos_nonneg _) (by norm_num)
    · rw [rad2deg, div_le_iff₀ Real.pi_pos]
      linarith [Real.arccos_le_pi ((sind (-offset) - sind phi * sind delta) /
        (cosd phi * cosd delta))]
  · simp only [SunTimes.sunRiseSet, h]

/-- Witness for C2 at `phi = 0`, `delta = 0`, `offset = 0`, where the acos
argument evaluates to 0 and the returned hour angle to 90. -/
theorem approxLocalHourAngle_spec_witness :
    SunTimes.approxLocalHourAngle 0 0 0 =
      Except.ok (rad2deg (Real.arccos ((sind (-(0:ℝ)) - sind 0 * sind 0) /
        (cosd 0 * cosd 0)))) ∧
    0 ≤ rad2deg (Real.arccos ((sind (-(0:ℝ)) - sind 0 * sind 0) /
        (cosd 0 * cosd 0))) ∧
    rad2deg (Real.arccos ((sind (-(0:ℝ)) - sind 0 * sind 0) /
        (cosd 0 * cosd 0))) ≤ 180 := by
  have hg : (sind (-(0:ℝ)) - sind 0 * sind 0) / (cosd 0 * cosd 0) = 0 := by
    rw [neg_zero, sind_zero, cosd_zero]
    norm_num
  exact (approxLocalHourAngle_spec 0 0 0).2.2.1
    (by rw [hg]; norm_num) (by rw [hg]; norm_num)

/-- C5 (amended): the apparent declination itself is bounded to [−90,90], the
right-ascension interpolation pre-corrects its samples for ±360° wraparound
while the declination interpolation does not; however `interpolatedDec` folds
its interpolated value into [0,360) with `reduceAngle`. -/
theorem declination_interpolation_spec : ∀ (cst : Constants) (T n : ℝ),
    (-90 ≤ SunTimes.sunApparentDeclination cst T ∧
      SunTimes.sunApparentDeclination cst T ≤ 90) ∧
    SunTimes.interpolatedRa cst T n =
      reduceAngle (besselInterp
        (recenter (SunTimes.sunApparentRightAscension cst T)
          (SunTimes.sunApparentRightAscension cst (T - 1 / 36525)))
        (SunTimes.sunApparentRightAscension cst T)
        (recenter (SunTimes.sunApparentRightAscension cst T)
          (SunTimes.sunApparentRightAscension cst (T + 1 / 36525))) n) ∧
    SunTimes.interpolatedDec cst T n =
      reduceAngle (besselInterp
        (SunTimes.sunApparentDeclination cst (T - 1 / 36525))
        (SunTimes.sunApparentDeclination cst T)
        (SunTimes.sunApparentDeclination cst (T + 1 / 36525)) n) := by
  intro cst T n
  refine ⟨?_, ?_, ?_⟩
  · unfold SunTimes.sunApparentDeclination
    exact rad2deg_arcsin_bounds _
  · simp only [SunTimes.interpolatedRa, interpolateFromThree_normalized]
  · simp only [SunTimes.interpolatedDec, interpolateFromThree_plain]

/-- Counterexample for C5 as stated: under the concrete external table
`cstDecl` the apparent declination is −30° at every date, and the solver's
`interpolatedDec` folds it to 330°, outside [−90,90] — declination is not
left unreduced throughout the solver. -/
theorem interpolatedDec_folds_counterexample :
    SunTimes.sunApparentDeclination cstDecl 0 = -30 ∧
    SunTimes.interpolatedDec cstDecl 0 0 = 330 ∧
    ¬ SunTimes.interpolatedDec cstDecl 0 0 ≤ 90 := by
  have h2 : SunTimes.interpolatedDec cstDecl 0 0 = 330 := by
    simp only [SunTimes.interpolatedDec, SunTimes.cstDecl_declination]
    have h3 : interpolateFromThree (-30) (-30) (-30) 0 false = -30 := by
      simp only [interpolateFromThree]
      norm_num
    rw [h3, reduceAngle_of_neg (by norm_num) (by norm_num)]
    norm_num
  exact ⟨SunTimes.cstDecl_declination 0, h2, by rw [h2]; norm_num⟩

/-- C8 (amended): when the flag is neither RISE nor SET and the domain check
passes (the initial hour-angle computation returns a value), `sunRiseSet`
returns the invalid-flag rejection, producing neither an event instant nor a
classification, with no correction iteration; a domain-check failure, by
contrast, raises the classification before the flag is ever examined. -/
theorem invalidFlag_rejection : ∀ (cst : Constants) (rnd : Bool) (t0 : ℤ)
    (utcOff DeltaT T phi L : ℝ) (flag : String) (offset H0 : ℝ),
    flag ≠ "RISE" → flag ≠ "SET" →
    SunTimes.approxLocalHourAngle phi
      (SunTimes.sunApparentDeclination cst (T - DeltaT / (3600 * 24 * 36525)))
      offset = Except.ok H0 →
    SunTimes.sunRiseSet cst rnd t0 utcOff DeltaT T phi L flag offset =
      SunTimes.RiseSetResult.invalidFlag := by
  intro cst rnd t0 utcOff DeltaT T phi L flag offset H0 hR hS hok
  simp only [SunTimes.sunRiseSet, hok]
  rw [if_neg hR, if_neg hS]

/-- Witness for C8 with the flat external table (declination identically 0),
latitude 0 and offset 0, where the domain check passes with hour angle 90 and
the unrecognized flag is rejected. -/
theorem invalidFlag_rejection_witness :
    SunTimes.sunRiseSet cstFlat false 0 0 0 0 0 0 "X" 0 =
      SunTimes.RiseSetResult.invalidFlag := by
  have hg : (sind (-(0:ℝ)) - sind 0 * sind 0) / (cosd 0 * cosd 0) = 0 := by
    rw [neg_zero, sind_zero, cosd_zero]
    norm_num
  have hok : SunTimes.approxLocalHourAngle 0
      (SunTimes.sunApparentDeclination cstFlat ((0:ℝ) - 0 / (3600 * 24 * 36525)))
      0 = Except.ok (rad2deg (π / 2)) := by
    rw [SunTimes.cstFlat_declination]
    simp only [SunTimes.approxLocalHourAngle, hg]
    rw [if_neg (by norm_num : ¬(0:ℝ) < -1), if_neg (by norm_num : ¬(1:ℝ) < 0),
      Real.arccos_zero]
  exact invalidFlag_rejection cstFlat false 0 0 0 0 0 0 "X" 0 (rad2deg (π / 2))
    (by decide) (by decide) hok

/-- Counterexample for C8 as stated: with the external table `cstHigh`
(declination 60° on this date), latitude 60° and flag "X" (neither RISE nor
SET), `sunRiseSet` raises the SUN_HIGH classification — the domain check runs
before the flag check, so an invalid flag does not always prevent a no-event
classification. -/
theorem invalidFlag_domain_counterexample :
    SunTimes.sunRiseSet cstHigh false 0 0 0 0 60 0 "X" 0 =
      SunTimes.RiseSetResult.noEvent NoEventCode.SUN_HIGH ∧
    SunTimes.sunRiseSet cstHigh false 0 0 0 0 60 0 "X" 0 ≠
      SunTimes.RiseSetResult.invalidFlag := by
  have hg : (sind (-(0:ℝ)) - sind 60 * sind 60) / (cosd 60 * cosd 60) = -3 := by
    rw [neg_zero, sind_zero, sind_sixty, cosd_sixty]
    have h3 : Real.sqrt 3 / 2 * (Real.sqrt 3 / 2) = 3 / 4 := by
      rw [div_mul_div_comm, Real.mul_self_sqrt (by norm_num : (0:ℝ) ≤ 3)]
      norm_num
    rw [h3]
    norm_num
  have happ : SunTimes.approxLocalHourAngle 60
      (SunTimes.sunApparentDeclination cstHigh ((0:ℝ) - 0 / (3600 * 24 * 36525)))
      0 = Except.error NoEventCode.SUN_HIGH := by
    rw [SunTimes.cstHigh_declination]
    simp only [SunTimes.approxLocalHourAngle, hg]
    rw [if_pos (by norm_num : (-3:ℝ) < -1)]
  have h1 : SunTimes.sunRiseSet cstHigh false 0 0 0 0 60 0 "X" 0 =
      SunTimes.RiseSetResult.noEvent NoEventCode.SUN_HIGH := by
    simp only [SunTimes.sunRiseSet, happ]
  exact ⟨h1, by rw [h1]; simp⟩

/-- Witness for C10 at the out-of-range phase selector 5. -/
theorem truePhase_invalid_phase_witness :
    MoonPhases.truePhase (fun _ => (0:ℝ)) 0 5 =
      MoonPhases.meanPhase 0 (5/4) +
      MoonPhases.commonCorrections (MoonPhases.planetaryArguments 0 (5/4)) := by
  have h := truePhase_invalid_phase (fun _ => (0:ℝ)) 0 5 (by norm_num)
  simpa using h

/-- An environment with both configuration flags cleared. -/
noncomputable def envBase : Env :=
  ⟨cstTransit, false, false, fun _ => 0, fun _ => 0, fun _ => 0⟩

/-- An environment identical to `envBase` except that
`returnTimeForNoEventCase` is set, which the three core solvers never read. -/
noncomputable def envAlt : Env :=
  ⟨cstTransit, false, true, fun _ => 0, fun _ => 0, fun _ => 0⟩

/-- C9 (amended): the solvers are referentially transparent once the shared
configuration they actually read is fixed: two environments agreeing on the
constant tables, the ΔT and Julian-century providers and the
`roundToNearestMinute` flag give identical `sunRiseSet`/`sunTransit` results
(the `returnTimeForNoEventCase` flag is irrelevant to them), and `truePhase`
depends on nothing but the lunation index, the phase selector and the `kToT`
conversion. -/
theorem determinism_given_config :
    (∀ e1 e2 : Env, e1.cst = e2.cst → e1.DeltaT = e2.DeltaT →
      e1.datetimeToT = e2.datetimeToT →
      e1.roundToNearestMinute = e2.roundToNearestMinute →
      (∀ (t0 : ℤ) (utcOff phi L : ℝ) (flag : String) (offset : ℝ),
        sunRiseSetEnv e1 t0 utcOff phi L flag offset =
          sunRiseSetEnv e2 t0 utcOff phi L flag offset) ∧
      (∀ (t0 : ℤ) (utcOff L : ℝ),
        sunTransitEnv e1 t0 utcOff L = sunTransitEnv e2 t0 utcOff L)) ∧
    (∀ e1 e2 : Env, e1.kToT = e2.kToT → ∀ (k : ℝ) (phase : ℚ),
      truePhaseEnv e1 k phase = truePhaseEnv e2 k phase) := by
  constructor
  · intro e1 e2 h1 h2 h3 h4
    constructor
    · intro t0 utcOff phi L flag offset
      unfold sunRiseSetEnv
      rw [h1, h2, h3, h4]
    · intro t0 utcOff L
      unfold sunTransitEnv
      rw [h1, h2, h3, h4]
  · intro e1 e2 h k phase
    unfold truePhaseEnv
    rw [h]

/-- Witness for C9: two environments differing only in the
`returnTimeForNoEventCase` flag give the same transit instant and the same
true-phase date. -/
theorem determinism_given_config_witness :
    sunTransitEnv envBase 0 0 0 = sunTransitEnv envAlt 0 0 0 ∧
    truePhaseEnv envBase 0 0 = truePhaseEnv envAlt 0 0 :=
  ⟨(determinism_given_config.1 envBase envAlt rfl rfl rfl rfl).2 0 0 0,
    determinism_given_config.2 envBase envAlt rfl 0 0⟩

lemma cstTransit_m0 :
    SunTimes.normalizeM ((0 - 79.33938163 - 280.46061837) / 360) 0 = 1 / 1800 := by
  simp only [SunTimes.normalizeM]
  rw [if_pos (by norm_num : ((0:ℝ) - 79.33938163 - 280.46061837) / 360 + 0 / 1440 < 0)]
  norm_num

lemma cstTransit_H :
    SunTimes.localHourAngle (280.46061837 + 360.985647 * (1 / 1800)) 79.33938163 0 =
      985647 / 1800000000 := by
  simp only [SunTimes.localHourAngle]
  have harg : (280.46061837 + 360.985647 * (1 / 1800) : ℝ) + 79.33938163 - 0 =
      360 + 985647 / 1800000000 := by norm_num
  rw [harg, reduceAngle_of_between (by norm_num) (by norm_num)]
  have hsub : (360 + 985647 / 1800000000 : ℝ) - 360 = 985647 / 1800000000 := by
    norm_num
  rw [hsub, if_neg (by norm_num : ¬(985647 / 1800000000 : ℝ) > 180)]

lemma cstTransit_corr :
    SunTimes.sunTransitCorrection cstTransit 0 280.46061837 0 79.33938163 (1 / 1800) =
      -(985647 / 648000000000) := by
  simp only [SunTimes.sunTransitCorrection]
  have hn : (1 / 1800 : ℝ) + 0 / 864000 = 1 / 1800 := by norm_num
  rw [hn, SunTimes.cstTransit_interpRa, cstTransit_H]
  norm_num

/-- Counterexample for C9 as stated: two `sunTransit` calls with identical
inputs (date, longitude, ΔT, Julian-century conversion, constant tables)
return different instants when the shared module-level `roundToNearestMinute`
setting differs between the calls, so the solver does depend on state shared
across calls. -/
theorem roundToNearestMinute_dependence_counterexample :
    SunTimes.sunTransit cstTransit false 0 0 0 0 79.33938163 = 48 ∧
    SunTimes.sunTransit cstTransit true 0 0 0 0 79.33938163 = 60 := by
  have hkey : ∀ rnd : Bool,
      SunTimes.sunTransit cstTransit rnd 0 0 0 0 79.33938163 =
        SunTimes.localizeTransit rnd 0 (359014353 / 648000000000) := by
    intro rnd
    simp only [SunTimes.sunTransit, SunTimes.cstTransit_ra,
      SunTimes.cstTransit_sidereal]
    rw [cstTransit_m0, cstTransit_corr]
    norm_num
  have hfl : (⌊(359014353 / 648000000000 : ℝ) * 3600 * 24 + 0.5⌋ : ℤ) = 48 := by
    rw [Int.floor_eq_iff]
    constructor
    · push_cast
      norm_num
    · push_cast
      norm_num
  constructor
  · rw [hkey false]
    simp only [SunTimes.localizeTransit, hfl]
    norm_num
  · rw [hkey true]
    simp only [SunTimes.localizeTransit, hfl]
    decide

end MeeusSunMoon
